import Mathlib

/-!
# Shallow embedding of the amqpx connection/session pool core

This file embeds the two-tier resource pool of the repository:

* `Connection` and its operations (`flag`, `connect`, `error`, `recover`,
  `close`) from `src/pool/connection.go` (first document, lines 1-325);
* `ConnectionPool` operations (`NewConnectionPool`, `initCachedConns`,
  `GetConnection`, `GetTransientConnection`, `ReturnConnection`) from
  `src/unnamed/part_000`;
* `SessionPool` operations (`NewSessionPool`, `GetSession`,
  `GetTransientSession`, `ReturnSession`, `Close`, `deriveSession`) from
  `src/pool/connection.go` (second document, lines 325-532).

External effects are made explicit inputs:

* a dial attempt's outcome is a `Bool` (`true` = `amqp.DialConfig` succeeded);
* `recover`'s retry loop consumes a `List Bool` of successive dial outcomes;
  the list ending before any successful dial models the shutdown token firing
  during the backoff sleep (the only other way the loop exits);
* context/cancellation state is a `Bool` field or argument;
* Go's `select` over simultaneously-ready cases is rendered deterministically
  in the textual order of the cases, noted at each use.

Machine integers (`int`, `int64`) are modelled as `Int`; none of the verified
operations can overflow them in the claims' scope.
-/

/-- The error kinds surfaced by the pool core (spec §7, and the sentinel
errors referenced from the source: `ErrInvalidConnectURL`, `ErrConnectionFailed`,
`ErrConnectionClosed`, `ErrPoolInitializationFailed`, `ErrPoolClosed`,
`ErrClosed`, `errInvalidPoolSize`), plus the caller-context cancellation error
and broker-originated `amqp.Error`s. -/
inductive Err where
  | invalidConnectURL : Err
  | connectionFailed : Err
  | connectionClosed : Err
  | poolInitializationFailed (cause : Err) : Err
  | poolClosed : Err
  | closed : Err
  | invalidPoolSize : Err
  | ctxCanceled : Err
  | amqpError (code : Nat) : Err
  | chanFull : Err
  deriving DecidableEq, Repr

/-- Cancellation/shutdown-class errors (spec §4.2 "Error classification"):
pool shutdown, connection shutdown, and caller-context expiry.  Broker and
transport errors are not in this class. -/
def Err.shutdownClass : Err → Bool
  | .poolClosed => true
  | .closed => true
  | .connectionClosed => true
  | .ctxCanceled => true
  | _ => false

/-- Modelled from the spec: `flaggable(err)` is not under `src/` (only its
caller `ReturnConnection` is).  Spec §4.2: "If cached:
`flag(err != none ∧ err ≠ shutdown-class)`" and "An error flags a Connection
iff it is a broker/transport error.  A cancellation-class error ... does NOT
flag the Connection." -/
def flaggable : Option Err → Bool
  | none => false
  | some e => !e.shutdownClass

/-- State of one `Connection` wrapper (`src/pool/connection.go:16-37`).
`connLive` stands for `ch.conn ≠ nil ∧ ¬ch.conn.IsClosed()`; `shutdown` for
the derived context being cancelled; `errors`/`errorsClosed` for the buffered
`errors` notification channel and whether the amqp library closed it.
The blocking-notification channel only drives `pauseOnFlowControl`, which is
pure waiting and is not modelled. -/
structure Connection where
  flagged : Bool
  connLive : Bool
  shutdown : Bool
  errors : List Err
  errorsClosed : Bool
  cached : Bool
  deriving DecidableEq, Repr

namespace Connection

/-- `isClosed` (`connection.go:199-201`):
`ch.flagged || ch.conn == nil || ch.conn.IsClosed() || ch.isShutdown()`. -/
def isClosed (c : Connection) : Bool :=
  c.flagged || !c.connLive || c.shutdown

/-- `Flag` (`connection.go:103-110`): sets the sticky flag only when it is
currently unset and the argument is `true`. -/
def flag (c : Connection) (flagged : Bool) : Connection :=
  if !c.flagged && flagged then { c with flagged := flagged } else c

/-- `IsFlagged` getter used by `ConnectionPool.GetConnection`. -/
def isFlagged (c : Connection) : Bool := c.flagged

/-- `IsCached` getter used by `ConnectionPool.ReturnConnection`. -/
def isCached (c : Connection) : Bool := c.cached

/-- One dial attempt: `connect` (`connection.go:121-151`).  If the connection
is not closed it is reused; otherwise `amqp.DialConfig` runs (outcome
`dialOk`); on success the handle is rebound and fresh `errors`/`blockers`
channels are installed and subscribed. -/
def connect (c : Connection) (dialOk : Bool) : Connection × Option Err :=
  if !c.isClosed then (c, none)
  else if dialOk then
    ({ c with connLive := true, errors := [], errorsClosed := false }, none)
  else (c, some .connectionFailed)

/-- `error` (`connection.go:233-259`): drains the errors channel, returning
the first pending error; `ErrConnectionClosed` when the shutdown token fired
(first `select` case) or when the library closed the channel (`ok = false`
after the buffered items); `none` when nothing is pending.  Go's `select`
picks randomly among ready cases; we follow the textual order (shutdown
first). -/
def errorDrain (c : Connection) : Connection × Option Err :=
  if c.shutdown then (c, some .connectionClosed)
  else if c.errorsClosed then ({ c with errors := [] }, some .connectionClosed)
  else ({ c with errors := [] }, c.errors.head?)

/-- The retry loop of `recover` (`connection.go:287-311`): each list element
is the outcome of one dial attempt; an empty remainder means the shutdown
token fired during the backoff sleep (`case <-ch.catchShutdown()`), which is
the only exit besides a successful `connect`.  After the loop breaks,
`ch.flagged = false` (line 309). -/
def recoverLoop (c : Connection) : List Bool → Connection × Option Err
  | [] =>
    if !c.isClosed then ({ c with flagged := false }, none)
    else (c, some .poolClosed)
  | d :: ds =>
    if !c.isClosed then ({ c with flagged := false }, none)
    else if d then
      ({ c with connLive := true, errors := [], errorsClosed := false,
                flagged := false }, none)
    else c.recoverLoop ds

/-- `recover` (`connection.go:269-312`): drain pending errors; if healthy and
not closed, return success immediately (after `pauseOnFlowControl`, pure
waiting); otherwise run the dial retry loop. -/
def recover (c : Connection) (dials : List Bool) : Connection × Option Err :=
  if c.errorDrain.2 = none ∧ !c.errorDrain.1.isClosed then
    (c.errorDrain.1, none)
  else c.errorDrain.1.recoverLoop dials

/-- `Close` (`connection.go:212-221`): cancel the derived context, then close
the underlying handle if it is still open. -/
def close (c : Connection) : Connection :=
  { c with shutdown := true, connLive := false }

end Connection

/-- A freshly-constructed `Connection` record before `Connect` runs
(`connection.go:68-86`): unflagged, `conn = nil`, fresh empty channels, live
derived context. -/
def freshConnection (cached : Bool) : Connection :=
  { flagged := false, connLive := false, shutdown := false,
    errors := [], errorsClosed := false, cached := cached }

/-- `NewConnection` (`connection.go:41-93`): builds the wrapper then runs
`Connect` (one dial on the fresh, closed wrapper); on dial failure it returns
`(nil, err)` — the constructed wrapper is dropped. -/
def NewConnection (cached : Bool) (dialOk : Bool) : Except Err Connection :=
  let conn := freshConnection cached
  match conn.connect dialOk with
  | (conn', none) => .ok conn'
  | (_, some e) => .error e

/-- The operations that can touch a `Connection` over its lifetime: the
public methods of the wrapper plus the two asynchronous events the amqp
library can produce (delivery of a close notification, which also closes the
underlying handle, and closing of the notification channel itself). -/
inductive ConnOp where
  | flagOp (erred : Bool) : ConnOp
  | connectOp (dialOk : Bool) : ConnOp
  | recoverCall (dials : List Bool) : ConnOp
  | errorOp : ConnOp
  | closeOp : ConnOp
  | asyncError (e : Err) : ConnOp
  | asyncChanClose : ConnOp
  deriving DecidableEq, Repr

/-- Effect of one operation on the connection state. -/
def Connection.step (c : Connection) : ConnOp → Connection
  | .flagOp erred => c.flag erred
  | .connectOp d => (c.connect d).1
  | .recoverCall dials => (c.recover dials).1
  | .errorOp => c.errorDrain.1
  | .closeOp => c.close
  | .asyncError e => { c with errors := c.errors ++ [e], connLive := false }
  | .asyncChanClose => { c with errorsClosed := true }

/-- A `Connection` as it looks right after a successful dial: handle bound,
fresh channels, unflagged. -/
def dialedConnection (cached : Bool) : Connection :=
  { freshConnection cached with connLive := true }

/-- Sample healthy cached connection, used to instantiate theorems. -/
def sampleOpen : Connection := dialedConnection true

/-- Sample flagged cached connection. -/
def sampleFlagged : Connection := { sampleOpen with flagged := true }

/-- Sample transient (non-cached) connection. -/
def sampleTransient : Connection := dialedConnection false

/-! ## Connection pool (`src/unnamed/part_000`) -/

/-- Pool state (`part_000:15-41`): the buffered `connections` channel (FIFO,
capacity `size`), the transient counters, and the pool's cancellation
token. -/
structure ConnectionPool where
  size : Nat
  connections : List Connection
  transientID : Int
  concurrentTransient : Int
  shutdown : Bool
  deriving DecidableEq, Repr

namespace ConnectionPool

/-- `initCachedConns` (`part_000:124-142`): for each `id < size`, derive a
cached connection (`dialOk id` is the dial outcome) and enqueue it via a
`select` that prefers the send, falls back to the context-done case, and
errors on a full buffer.  Returns the queue built so far together with the
error, so the fate of already-initialized connections is observable.
`remaining` counts the ids still to create; created connections are never
closed on the failure paths, exactly as in the source. -/
def initCachedConnsAux (dialOk : Nat → Bool) (cap : Nat) (parentDone : Bool) :
    Nat → Nat → List Connection → List Connection × Option Err
  | _, 0, queue => (queue, none)
  | id, remaining + 1, queue =>
    match NewConnection true (dialOk id) with
    | .error e => (queue, some (.poolInitializationFailed e))
    | .ok conn =>
      if queue.length < cap then
        initCachedConnsAux dialOk cap parentDone (id + 1) remaining
          (queue ++ [conn])
      else if parentDone then
        (queue, some (.poolInitializationFailed .ctxCanceled))
      else
        (queue, some (.poolInitializationFailed .chanFull))

/-- `initCachedConns` run from an empty queue for `size` connections. -/
def initCachedConns (size : Nat) (dialOk : Nat → Bool) (parentDone : Bool) :
    List Connection × Option Err :=
  initCachedConnsAux dialOk size parentDone 0 size []

end ConnectionPool

/-- `NewConnectionPool` (`part_000:45-72`) followed by
`newConnectionPoolFromOption` (`part_000:74-122`): reject `numConns < 1` with
`errInvalidPoolSize`, reject an unparsable URL with `ErrInvalidConnectURL`,
then eagerly initialize the cached connections; any initialization error is
returned as-is (the already-built pool state, queue included, is dropped
without closing anything). -/
def NewConnectionPool (numConns : Int) (urlValid : Bool)
    (dialOk : Nat → Bool) (parentDone : Bool) : Except Err ConnectionPool :=
  if numConns < 1 then .error .invalidPoolSize
  else if !urlValid then .error .invalidConnectURL
  else
    match ConnectionPool.initCachedConns numConns.toNat dialOk parentDone with
    | (_, some e) => .error e
    | (queue, none) =>
      .ok { size := numConns.toNat, connections := queue,
            transientID := 0, concurrentTransient := 0, shutdown := false }

namespace ConnectionPool

/-- Result of `GetConnection`: a connection handed out with the updated pool,
an error, or a blocked call (no queue item, no fired token). -/
inductive GetConnResult where
  | got (conn : Connection) (pool : ConnectionPool) : GetConnResult
  | err (e : Err) : GetConnResult
  | blocks : GetConnResult
  deriving DecidableEq, Repr

/-- `GetConnection` (`part_000:162-181`): `select` over the queue, the
caller's context and the pool's shutdown token (rendered in textual order; in
the code the three cases race).  A dequeued flagged connection is recovered
first (`dials` is the recovery dial trace); a recovery error is returned to
the caller instead of the connection.  The `connections` channel is never
closed by the code, so the `!ok` branch is unreachable and the empty-queue,
no-token case blocks. -/
def GetConnection (cp : ConnectionPool) (ctxDone : Bool) (dials : List Bool) :
    GetConnResult :=
  match cp.connections with
  | conn :: rest =>
    if conn.isFlagged then
      match conn.recover dials with
      | (conn', none) => .got conn' { cp with connections := rest }
      | (_, some e) => .err e
    else .got conn { cp with connections := rest }
  | [] =>
    if ctxDone then .err .ctxCanceled
    else if cp.shutdown then .err .closed
    else .blocks

/-- Result of `GetTransientConnection`: success with the connection and the
updated pool, an error, or a runtime panic (nil-pointer dereference). -/
inductive GetTransientResult where
  | got (conn : Connection) (pool : ConnectionPool) : GetTransientResult
  | err (e : Err) : GetTransientResult
  | crash : GetTransientResult
  deriving DecidableEq, Repr

/-- `conn.Recover(ctx)` as invoked on the result of a failed
`deriveConnection` (`part_000:218`).  `Recover` (`connection.go:263-267`)
begins with `ch.mu.Lock()`; in Go, calling it through a nil `*Connection`
receiver dereferences the nil pointer and panics.  `NewConnection` returns
`(nil, err)` on dial failure (`connection.go:88-91`), so the receiver here is
an `Option Connection`. -/
def recoverOnMaybe (oc : Option Connection) (dials : List Bool) :
    Option (Connection × Option Err) :=
  match oc with
  | none => none
  | some c => some (c.recover dials)

/-- `GetTransientConnection` (`part_000:205-224`): derive a transient
connection with a fresh monotonic transient id; on success the deferred
`incTransient` runs (`err == nil`).  On derive failure the code invokes
`conn.Recover(ctx)` on the `conn` it just received — which is nil
(`NewConnection` returned `(nil, err)`) — so the call panics before any
result is produced. -/
def GetTransientConnection (cp : ConnectionPool) (dialOk : Bool)
    (dials : List Bool) : GetTransientResult :=
  let cp₁ := { cp with transientID := cp.transientID + 1 }
  match NewConnection false dialOk with
  | .ok conn =>
    .got conn { cp₁ with concurrentTransient := cp₁.concurrentTransient + 1 }
  | .error _ =>
    match recoverOnMaybe none dials with
    | none => .crash
    | some (conn, none) =>
      .got conn { cp₁ with concurrentTransient := cp₁.concurrentTransient + 1 }
    | some (_, some e) => .err e

/-- Result of `ReturnConnection`: the updated pool (with the connection that
was closed or enqueued), or the `panic` on a full buffer. -/
inductive ReturnConnResult where
  | ok (pool : ConnectionPool) (returned : Connection) (wasClosed : Bool) :
      ReturnConnResult
  | panicked : ReturnConnResult
  deriving DecidableEq, Repr

/-- `ReturnConnection` (`part_000:231-245`): a transient connection is
counted down and closed; a cached connection is flagged via
`flaggable(err)` and sent back on the queue through a `select` whose
`default` branch panics when the buffer is full.  The `ctx` parameter is
unused by the body. -/
def ReturnConnection (cp : ConnectionPool) (conn : Connection)
    (err : Option Err) : ReturnConnResult :=
  if !conn.isCached then
    .ok { cp with concurrentTransient := cp.concurrentTransient - 1 }
      conn.close true
  else
    let conn' := conn.flag (flaggable err)
    if cp.connections.length < cp.size then
      .ok { cp with connections := cp.connections ++ [conn'] } conn' false
    else .panicked

end ConnectionPool

/-! ## Sessions and the session pool
(`src/pool/connection.go`, second document, lines 325-532) -/

/-- Modelled from the spec: the `Session` type lives in `session.go`, which
is absent from `src/` (only the `SessionPool` caller is present).  Spec §3:
a Session "Carries: id (monotonic per pool, with a separate counter for
transient), buffer size (pending confirmations queue capacity), confirmable
flag, cached flag, auto-close-connection flag"; it also holds its pending
broker confirmations and can be closed. -/
structure Session where
  id : Int
  bufferSize : Nat
  confirmable : Bool
  cached : Bool
  autoCloseConnection : Bool
  pendingConfirms : Nat
  closed : Bool
  deriving DecidableEq, Repr

namespace Session

/-- Modelled from the spec: `NewSession` (absent from `src/`) builds a
Session from the options its callers pass
(`SessionWithBufferSize`, `SessionWithConfirms`, `SessionWithCached`,
`SessionWithAutoCloseConnection`); the buffer-size option is the capacity of
the pending-confirmations queue.  A fresh session starts with no pending
confirmations. -/
def new (id : Int) (bufferSize : Nat) (confirmable cached autoClose : Bool) :
    Session :=
  { id := id, bufferSize := bufferSize, confirmable := confirmable,
    cached := cached, autoCloseConnection := autoClose,
    pendingConfirms := 0, closed := false }

/-- Modelled from the spec: `Session.Close` (absent from `src/`) closes the
session (and its connection when `autoCloseConnection`). -/
def close (s : Session) : Session := { s with closed := true }

/-- Modelled from the spec: `Session.flushConfirms` (absent from `src/`)
drains pending broker confirmations "so the next borrower sees an empty
confirmation stream" (spec §4.3). -/
def flushConfirms (s : Session) : Session := { s with pendingConfirms := 0 }

/-- Modelled from the spec: `Session.Recover` (absent from `src/`) retries
until the session is healthy again or the pool shuts down; per the source
comment at its call site ("error is only returned on shutdown",
`connection.go:444-445`) the only error it returns is shutdown-class.
`shutdownDuringRecover` is whether shutdown fired first. -/
def recoverOp (s : Session) (shutdownDuringRecover : Bool) :
    Session × Option Err :=
  if shutdownDuringRecover then (s, some .poolClosed) else (s, none)

end Session

/-- Session-pool state (`connection.go:334-346`): the buffered `sessions`
channel (capacity `size`), the configured sizes and flags, the transient id
counter, and the pool's own cancellation token (`shutdown`). -/
structure SessionPool where
  size : Nat
  bufferSize : Nat
  confirmable : Bool
  sessions : List Session
  transientID : Int
  shutdown : Bool
  deriving DecidableEq, Repr

namespace SessionPool

/-- `deriveSession` (`connection.go:524-531`): note the source passes
`SessionWithBufferSize(sp.size)` — the pool's *size*, not its configured
`bufferSize`. -/
def deriveSession (sp : SessionPool) (_conn : Connection) (id : Int)
    (cached : Bool) : Session :=
  Session.new id sp.size sp.confirmable cached false

/-- `GetTransientSession` (`connection.go:414-428`): borrow a transient
connection, bump the transient id, and build a non-cached session with
`auto-close-connection = true`; again the source passes
`SessionWithBufferSize(sp.size)`. -/
def GetTransientSession (sp : SessionPool) (cp : ConnectionPool)
    (dialOk : Bool) (dials : List Bool) :
    Option (Session × SessionPool × ConnectionPool) :=
  match cp.GetTransientConnection dialOk dials with
  | .got _ cp' =>
    let tid := sp.transientID + 1
    some (Session.new tid sp.size sp.confirmable false true,
          { sp with transientID := tid }, cp')
  | _ => none

/-- Result of `GetSession`: the session with the updated pool, the `Closed`
error, or a blocked call (empty queue, untriggered token). -/
inductive GetSessionResult where
  | got (sess : Session) (pool : SessionPool) : GetSessionResult
  | err (e : Err) : GetSessionResult
  | blocks : GetSessionResult
  deriving DecidableEq, Repr

/-- `GetSession` (`connection.go:399-409`): `select` over the shutdown token
and the sessions queue (textual order; the cases race in the code).  The
`sessions` channel is never closed by the code, so the `!ok` branch is
unreachable and the empty-queue, untriggered-token case blocks. -/
def GetSession (sp : SessionPool) : GetSessionResult :=
  if sp.shutdown then .err .closed
  else
    match sp.sessions with
    | sess :: rest => .got sess { sp with sessions := rest }
    | [] => .blocks

/-- Result of `ReturnSession`: what happened to the session and the updated
pool. -/
inductive ReturnSessionResult where
  /-- not cached: closed outright. -/
  | closedNotCached (sess : Session) : ReturnSessionResult
  /-- cached, erred, recovery failed (shutdown): dropped, not re-enqueued,
  not closed. -/
  | discarded (sess : Session) : ReturnSessionResult
  /-- cached: re-enqueued. -/
  | enqueued (sess : Session) (pool : SessionPool) : ReturnSessionResult
  /-- cached, but the shutdown token won the enqueue race: closed. -/
  | closedOnShutdown (sess : Session) : ReturnSessionResult
  deriving DecidableEq, Repr

/-- `ReturnSession` (`connection.go:433-459`): a non-cached session is just
closed.  A cached erred session is recovered; a recovery error (only
returned on shutdown) discards it.  A cached healthy session has its pending
confirmations flushed.  The final enqueue is a `select` racing the shutdown
token against the queue send (shutdown case textually first); if shutdown
wins the session is closed. -/
def ReturnSession (sp : SessionPool) (sess : Session) (erred : Bool)
    (shutdownDuringRecover : Bool) : ReturnSessionResult :=
  if !sess.cached then .closedNotCached sess.close
  else
    let step : Option Session :=
      if erred then
        match sess.recoverOp shutdownDuringRecover with
        | (_, some _) => none
        | (sess', none) => some sess'
      else some sess.flushConfirms
    match step with
    | none => .discarded sess
    | some sess' =>
      if sp.shutdown then .closedOnShutdown sess'.close
      else .enqueued sess' { sp with sessions := sp.sessions ++ [sess'] }

/-- `Close` (`connection.go:466-488`): drain the sessions queue, closing
each drained session concurrently, and wait.  The pool's own cancellation
token (`sp.cancel`) is *not* triggered, and no other field is touched. -/
def Close (sp : SessionPool) : SessionPool × List Session :=
  ({ sp with sessions := [] }, sp.sessions.map Session.close)

/-- `initCachedSessions` (`connection.go:490-499`) through
`initCachedSession` (`connection.go:502-522`): for each id `0..size-1`,
borrow a cached connection, derive a session on it, return the connection,
and enqueue the session.  The borrow/retry loop's failure exits only occur
on shutdown; here the connection-pool interaction is kept abstract (the
borrowed connection is returned unflagged on success) and the derived
sessions are the observable result. -/
def initCachedSessions (size : Nat) (confirmable : Bool) : List Session :=
  (List.range size).map fun i =>
    Session.new (Int.ofNat i) size confirmable true false

end SessionPool

/-- Result of `NewSessionPool`: the pool, an error, or a runtime panic. -/
inductive NewSessionPoolResult where
  | ok (sp : SessionPool) : NewSessionPoolResult
  | err (e : Err) : NewSessionPoolResult
  | panicked (msg : String) : NewSessionPoolResult
  deriving DecidableEq, Repr

/-- `NewSessionPool` (`connection.go:348-366`) and
`newSessionPoolFromOption` (`connection.go:368-390`): a size below 1 hits
`panic("max pool size is negative or 0")` — no error value is returned.
Otherwise the defaults (`BufferSize = 1`, `Confirmable = false`) are
overridden by the options (here the post-option values are the arguments),
and the `size` cached sessions are eagerly initialized. -/
def NewSessionPool (size : Int) (bufferSize : Nat) (confirmable : Bool) :
    NewSessionPoolResult :=
  if size < 1 then .panicked "max pool size is negative or 0"
  else
    .ok { size := size.toNat, bufferSize := bufferSize,
          confirmable := confirmable,
          sessions := SessionPool.initCachedSessions size.toNat confirmable,
          transientID := 0, shutdown := false }

/-- A small concrete connection pool used to instantiate theorems. -/
def samplePool (queue : List Connection) : ConnectionPool :=
  { size := 1, connections := queue, transientID := 0,
    concurrentTransient := 0, shutdown := false }

/-- A small concrete session pool (size 5, buffer size option 1) used to
instantiate theorems. -/
def sampleSessionPool : SessionPool :=
  { size := 5, bufferSize := 1, confirmable := false,
    sessions := SessionPool.initCachedSessions 5 false,
    transientID := 0, shutdown := false }

/-- A cached session with a few pending confirmations, used to instantiate
theorems. -/
def sampleDirtySession : Session :=
  { Session.new 0 1 false true false with pendingConfirms := 3 }

/-! ## Helper lemmas -/

namespace Connection

lemma errorDrain_fst (c : Connection) :
    c.errorDrain.1 = c ∨ c.errorDrain.1 = { c with errors := [] } := by
  unfold errorDrain
  split
  · exact Or.inl rfl
  · split
    · exact Or.inr rfl
    · exact Or.inr rfl

lemma errorDrain_flagged (c : Connection) :
    c.errorDrain.1.flagged = c.flagged := by
  rcases c.errorDrain_fst with h | h <;> rw [h]

lemma errorDrain_shutdown (c : Connection) :
    c.errorDrain.1.shutdown = c.shutdown := by
  rcases c.errorDrain_fst with h | h <;> rw [h]

lemma errorDrain_isClosed (c : Connection) :
    c.errorDrain.1.isClosed = c.isClosed := by
  rcases c.errorDrain_fst with h | h
  · rw [h]
  · rw [h]
    rfl

/-- Exhaustive description of the retry loop: either the connection was
reusable and only the flag is cleared, or a dial succeeded (so `true` occurs
in the trace) and the handle is rebound with fresh channels and the flag
cleared, or the loop was cancelled by shutdown and the state is untouched. -/
lemma recoverLoop_spec (c : Connection) (dials : List Bool) :
    (c.isClosed = false ∧
      c.recoverLoop dials = ({ c with flagged := false }, none)) ∨
    (c.isClosed = true ∧ true ∈ dials ∧
      c.recoverLoop dials =
        ({ c with connLive := true, errors := [], errorsClosed := false,
                  flagged := false }, none)) ∨
    (c.isClosed = true ∧ c.recoverLoop dials = (c, some .poolClosed)) := by
  induction dials with
  | nil =>
    cases hc : c.isClosed with
    | false =>
      refine Or.inl ⟨rfl, ?_⟩
      unfold recoverLoop
      simp [hc]
    | true =>
      refine Or.inr (Or.inr ⟨rfl, ?_⟩)
      unfold recoverLoop
      simp [hc]
  | cons d ds ih =>
    cases hc : c.isClosed with
    | false =>
      refine Or.inl ⟨rfl, ?_⟩
      unfold recoverLoop
      simp [hc]
    | true =>
      cases d with
      | true =>
        refine Or.inr (Or.inl ⟨rfl, List.mem_cons_self _ _, ?_⟩)
        unfold recoverLoop
        simp [hc]
      | false =>
        have hstep : c.recoverLoop (false :: ds) = c.recoverLoop ds := by
          conv_lhs => rw [recoverLoop]
          simp [hc]
        rcases ih with ⟨hcl, -⟩ | ⟨-, hmem, hloop⟩ | ⟨-, hloop⟩
        · rw [hc] at hcl
          exact absurd hcl (by simp)
        · exact Or.inr (Or.inl
            ⟨rfl, List.mem_cons_of_mem _ hmem, by rw [hstep, hloop]⟩)
        · exact Or.inr (Or.inr ⟨rfl, by rw [hstep, hloop]⟩)

/-- A successful `recover` always hands back an unflagged connection. -/
lemma recover_success_unflagged (c conn : Connection) (dials : List Bool)
    (h : c.recover dials = (conn, none)) : conn.flagged = false := by
  unfold recover at h
  split at h
  · rename_i hcond
    injection h with h1 h2
    subst h1
    have hclosed := hcond.2
    simp only [Bool.not_eq_true'] at hclosed
    unfold isClosed at hclosed
    simp only [Bool.or_eq_false_iff] at hclosed
    exact hclosed.1.1
  · rcases recoverLoop_spec c.errorDrain.1 dials with
      ⟨-, hloop⟩ | ⟨-, -, hloop⟩ | ⟨-, hloop⟩
    · rw [hloop] at h
      injection h with h1 h2
      subst h1
      rfl
    · rw [hloop] at h
      injection h with h1 h2
      subst h1
      rfl
    · rw [hloop] at h
      injection h with h1 h2
      exact Option.noConfusion h2

end Connection

namespace Connection

lemma connect_flagged (c : Connection) (d : Bool) :
    (c.connect d).1.flagged = c.flagged := by
  unfold connect
  split
  · rfl
  · split <;> rfl

lemma flag_true_flagged (c : Connection) : (c.flag true).flagged = true := by
  unfold flag
  split
  · rfl
  · rename_i h
    simpa using h

lemma flag_shutdown (c : Connection) (b : Bool) :
    (c.flag b).shutdown = c.shutdown := by
  unfold flag
  split <;> rfl

lemma flag_cached (c : Connection) (b : Bool) :
    (c.flag b).cached = c.cached := by
  unfold flag
  split <;> rfl

/-- `recover` never raises the flag. -/
lemma recover_unflagged_preserved (c : Connection) (dials : List Bool)
    (h : c.flagged = false) : (c.recover dials).1.flagged = false := by
  unfold recover
  split
  · simpa [errorDrain_flagged] using h
  · rcases recoverLoop_spec c.errorDrain.1 dials with
      ⟨-, hloop⟩ | ⟨-, -, hloop⟩ | ⟨-, hloop⟩ <;>
      (rw [hloop]; try simp [errorDrain_flagged, h])

/-- On a flagged connection, the flag is cleared exactly by a `recover` that
returns success, and such a run contains a successful dial. -/
lemma recover_flagged_clear (c : Connection) (dials : List Bool)
    (hf : c.flagged = true) (h : (c.recover dials).1.flagged = false) :
    (c.recover dials).2 = none ∧ true ∈ dials := by
  have hf₁ : c.errorDrain.1.flagged = true := by
    rw [errorDrain_flagged]; exact hf
  have hcl : c.errorDrain.1.isClosed = true := by
    unfold isClosed
    simp [hf₁]
  have hcond : ¬(c.errorDrain.2 = none ∧ (!c.errorDrain.1.isClosed) = true) := by
    rw [hcl]
    simp
  unfold recover at h ⊢
  rw [if_neg hcond] at h ⊢
  rcases recoverLoop_spec c.errorDrain.1 dials with
    ⟨hc0, -⟩ | ⟨-, hmem, hloop⟩ | ⟨-, hloop⟩
  · rw [hcl] at hc0
    exact absurd hc0 (by simp)
  · rw [hloop]
    exact ⟨rfl, hmem⟩
  · rw [hloop] at h
    simp [hf₁] at h

/-- On a flagged connection, a successful `recover` ends in the
freshly-dialed state: handle bound, empty fresh error channel, flag
cleared, shutdown token untouched. -/
lemma recover_flagged_success_state (c : Connection) (dials : List Bool)
    (hf : c.flagged = true) (h : (c.recover dials).2 = none) :
    (c.recover dials).1 =
      { c.errorDrain.1 with connLive := true, errors := [],
                            errorsClosed := false, flagged := false } := by
  have hf₁ : c.errorDrain.1.flagged = true := by
    rw [errorDrain_flagged]; exact hf
  have hcl : c.errorDrain.1.isClosed = true := by
    unfold isClosed
    simp [hf₁]
  have hcond : ¬(c.errorDrain.2 = none ∧ (!c.errorDrain.1.isClosed) = true) := by
    rw [hcl]
    simp
  unfold recover at h ⊢
  rw [if_neg hcond] at h ⊢
  rcases recoverLoop_spec c.errorDrain.1 dials with
    ⟨hc0, -⟩ | ⟨-, -, hloop⟩ | ⟨-, hloop⟩
  · rw [hcl] at hc0
    exact absurd hc0 (by simp)
  · rw [hloop]
  · rw [hloop] at h
    simp at h

/-- Single-step version of the sticky-flag law: a step can raise the flag
only through `Flag(true)`. -/
lemma step_flag_set (c : Connection) (op : ConnOp)
    (hset : (c.step op).flagged = true) (h : c.flagged = false) :
    op = ConnOp.flagOp true := by
  cases op with
  | flagOp erred =>
    cases erred with
    | true => rfl
    | false =>
      unfold step flag at hset
      simp only [Bool.and_false, Bool.false_eq_true, if_false, ite_false] at hset
      rw [h] at hset
      exact absurd hset (by simp)
  | connectOp d =>
    unfold step at hset
    rw [connect_flagged, h] at hset
    exact absurd hset (by simp)
  | recoverCall dials =>
    unfold step at hset
    rw [recover_unflagged_preserved c dials h] at hset
    exact absurd hset (by simp)
  | errorOp =>
    unfold step at hset
    rw [errorDrain_flagged, h] at hset
    exact absurd hset (by simp)
  | closeOp =>
    unfold step close at hset
    rw [h] at hset
    exact absurd hset (by simp)
  | asyncError e =>
    unfold step at hset
    rw [h] at hset
    exact absurd hset (by simp)
  | asyncChanClose =>
    unfold step at hset
    rw [h] at hset
    exact absurd hset (by simp)

/-- Single-step version of the flag-clearing law: a step can clear the flag
only through a `recover` that returns success after a successful dial. -/
lemma step_flag_clear (c : Connection) (op : ConnOp)
    (hf : c.flagged = true) (hclear : (c.step op).flagged = false) :
    ∃ dials, op = ConnOp.recoverCall dials ∧
      (c.recover dials).2 = none ∧ true ∈ dials := by
  cases op with
  | flagOp erred =>
    unfold step flag at hclear
    rw [hf] at hclear
    simp only [Bool.not_true, Bool.false_and, Bool.false_eq_true, if_false,
      ite_false] at hclear
    rw [hf] at hclear
    exact absurd hclear (by simp)
  | connectOp d =>
    unfold step at hclear
    rw [connect_flagged, hf] at hclear
    exact absurd hclear (by simp)
  | recoverCall dials =>
    obtain ⟨h1, h2⟩ := recover_flagged_clear c dials hf hclear
    exact ⟨dials, rfl, h1, h2⟩
  | errorOp =>
    unfold step at hclear
    rw [errorDrain_flagged, hf] at hclear
    exact absurd hclear (by simp)
  | closeOp =>
    unfold step close at hclear
    rw [hf] at hclear
    exact absurd hclear (by simp)
  | asyncError e =>
    unfold step at hclear
    rw [hf] at hclear
    exact absurd hclear (by simp)
  | asyncChanClose =>
    unfold step at hclear
    rw [hf] at hclear
    exact absurd hclear (by simp)

end Connection

namespace Connection

lemma flag_false_eq (c : Connection) : c.flag false = c := by
  unfold flag
  simp

lemma flag_of_flagged (c : Connection) (h : c.flagged = true) (b : Bool) :
    c.flag b = c := by
  unfold flag
  simp [h]

/-- Over a whole trace: a connection that starts unflagged and never receives
a `Flag(true)` stays unflagged. -/
lemma foldl_step_unflagged (ops : List ConnOp) :
    ∀ c : Connection, c.flagged = false →
      (∀ o ∈ ops, o ≠ ConnOp.flagOp true) →
      (ops.foldl Connection.step c).flagged = false := by
  induction ops with
  | nil =>
    intro c h _
    simpa using h
  | cons o os ih =>
    intro c h hops
    simp only [List.foldl_cons]
    refine ih (c.step o) ?_ (fun o' ho' => hops o' (List.mem_cons_of_mem _ ho'))
    cases hv : (c.step o).flagged
    · rfl
    · exact absurd (step_flag_set c o hv h)
        (hops o (List.mem_cons_self _ _))

/-- Over a whole trace: a flagged connection on which no `recover` run ever
reaches a successful dial stays flagged. -/
lemma foldl_step_flagged (ops : List ConnOp) :
    ∀ c : Connection, c.flagged = true →
      (∀ o ∈ ops, ∀ ds, o = ConnOp.recoverCall ds → true ∉ ds) →
      (ops.foldl Connection.step c).flagged = true := by
  induction ops with
  | nil =>
    intro c h _
    simpa using h
  | cons o os ih =>
    intro c h hops
    simp only [List.foldl_cons]
    refine ih (c.step o) ?_
      (fun o' ho' ds hds => hops o' (List.mem_cons_of_mem _ ho') ds hds)
    cases hv : (c.step o).flagged
    · obtain ⟨ds, hds, -, hmem⟩ := step_flag_clear c o h hv
      exact absurd hmem (hops o (List.mem_cons_self _ _) ds hds)
    · rfl

/-- A connection with an untriggered token, an open error channel and no
buffered errors reports no pending error. -/
lemma errorDrain_none (c : Connection) (h1 : c.shutdown = false)
    (h2 : c.errorsClosed = false) (h3 : c.errors = []) :
    c.errorDrain.2 = none := by
  unfold errorDrain
  simp [h1, h2, h3]

end Connection

/-! ## Claim theorems -/

/-- **C8.** For every Connection and every operation (and operation
sequence): `flag(erred)` changes the flagged bit only from false to true and
only when `erred` is true — `flag(false)`, and any `flag` on an
already-flagged Connection, leave the state unchanged; the only operation
that ever resets `flagged` to false is a `recover()` that reaches a
successful dial (it returns success and its dial trace contains a success);
consequently an unflagged Connection that never receives `flag(true)` stays
unflagged across a trace, and a flagged Connection with no successful
recovery stays flagged. -/
theorem connection_flag_sticky_only_recover_clears
    (c : Connection) (op : ConnOp) (ops : List ConnOp) :
    (c.flag false = c) ∧
    (c.flagged = true → ∀ b, c.flag b = c) ∧
    ((c.step op).flagged = true → c.flagged = false →
      op = ConnOp.flagOp true) ∧
    (c.flagged = true → (c.step op).flagged = false →
      ∃ dials, op = ConnOp.recoverCall dials ∧
        (c.recover dials).2 = none ∧ true ∈ dials) ∧
    (c.flagged = false → (∀ o ∈ ops, o ≠ ConnOp.flagOp true) →
      (ops.foldl Connection.step c).flagged = false) ∧
    (c.flagged = true →
      (∀ o ∈ ops, ∀ ds, o = ConnOp.recoverCall ds → true ∉ ds) →
      (ops.foldl Connection.step c).flagged = true) :=
  ⟨c.flag_false_eq,
   fun h b => c.flag_of_flagged h b,
   fun hset h => Connection.step_flag_set c op hset h,
   fun hf hclear => Connection.step_flag_clear c op hf hclear,
   fun h hops => Connection.foldl_step_unflagged ops c h hops,
   fun h hops => Connection.foldl_step_flagged ops c h hops⟩

/-- Witness for C8: on the concrete flagged sample connection, the step
`recover [true]` clears the flag, and the theorem identifies it as a
successful recovery containing a successful dial. -/
theorem connection_flag_sticky_only_recover_clears_witness :
    ∃ dials, ConnOp.recoverCall [true] = ConnOp.recoverCall dials ∧
      (sampleFlagged.recover dials).2 = none ∧ true ∈ dials :=
  (connection_flag_sticky_only_recover_clears sampleFlagged
    (ConnOp.recoverCall [true]) []).2.2.2.1 (by decide) (by decide)

/-- **C9.** Round-trip on one Connection that is not shut down: after
`flag(true)` followed by a `recover()` that returns success, `error()`
returns none — `recover` drains pending errors and the successful dial
installs a fresh, empty error channel (and no new asynchronous error arrives
in between, there being no intervening operation). -/
theorem flag_recover_then_error_none (c : Connection) (dials : List Bool)
    (hsd : c.shutdown = false)
    (hrec : ((c.flag true).recover dials).2 = none) :
    ((c.flag true).recover dials).1.errorDrain.2 = none := by
  have hf : (c.flag true).flagged = true := c.flag_true_flagged
  have hstate :=
    Connection.recover_flagged_success_state (c.flag true) dials hf hrec
  have hsd' : (c.flag true).errorDrain.1.shutdown = false := by
    rw [Connection.errorDrain_shutdown, Connection.flag_shutdown]
    exact hsd
  refine Connection.errorDrain_none _ ?_ ?_ ?_
  · rw [hstate]
    exact hsd'
  · rw [hstate]
  · rw [hstate]

/-- Witness for C9: the concrete healthy sample connection, flagged then
recovered with one successful dial, reports no pending error. -/
theorem flag_recover_then_error_none_witness :
    ((sampleOpen.flag true).recover [true]).1.errorDrain.2 = none :=
  flag_recover_then_error_none sampleOpen [true] (by decide) (by decide)

/-- **C1.** For every cached Connection acquired via `GetConnection`: a
Connection handed to the caller is never flagged (a flagged Connection
dequeued from the FIFO queue goes through `Recover` first, and only a
successful recovery — which clears the flag — lets it reach the caller); if
the recovery of the dequeued flagged Connection fails, the call returns that
error instead of a Connection. -/
lemma ConnectionPool.getConnection_cons (cp : ConnectionPool)
    (ctxDone : Bool) (dials : List Bool) (c : Connection)
    (rest : List Connection) (hq : cp.connections = c :: rest) :
    cp.GetConnection ctxDone dials =
      if c.isFlagged then
        match c.recover dials with
        | (conn', none) =>
          ConnectionPool.GetConnResult.got conn' { cp with connections := rest }
        | (_, some e) => ConnectionPool.GetConnResult.err e
      else
        ConnectionPool.GetConnResult.got c { cp with connections := rest } := by
  unfold ConnectionPool.GetConnection
  rw [hq]

theorem getConnection_never_hands_out_flagged (cp : ConnectionPool)
    (ctxDone : Bool) (dials : List Bool) :
    (∀ conn cp', cp.GetConnection ctxDone dials =
        ConnectionPool.GetConnResult.got conn cp' → conn.flagged = false) ∧
    (∀ c rest c' e, cp.connections = c :: rest → c.isFlagged = true →
      c.recover dials = (c', some e) →
      cp.GetConnection ctxDone dials = ConnectionPool.GetConnResult.err e) := by
  constructor
  · intro conn cp' h
    cases hq : cp.connections with
    | nil =>
      unfold ConnectionPool.GetConnection at h
      rw [hq] at h
      by_cases h1 : ctxDone = true <;> by_cases h2 : cp.shutdown = true <;>
        simp [h1, h2] at h
    | cons c rest =>
      rw [cp.getConnection_cons ctxDone dials c rest hq] at h
      by_cases hf : c.isFlagged = true
      · rw [if_pos hf] at h
        rcases hr : c.recover dials with ⟨cr, r⟩
        rw [hr] at h
        cases r with
        | none =>
          injection h with h1 h2
          rw [← h1]
          exact Connection.recover_success_unflagged c cr dials hr
        | some e => exact ConnectionPool.GetConnResult.noConfusion h
      · rw [if_neg hf] at h
        injection h with h1 h2
        rw [← h1]
        cases hv : c.isFlagged
        · exact hv
        · exact absurd hv hf
  · intro c rest c' e hq hf hr
    rw [cp.getConnection_cons ctxDone dials c rest hq, if_pos hf, hr]

/-- Witness for C1: on a concrete pool whose queued connection is flagged, a
recovery trace with no successful dial makes the call return the recovery
error, and a trace with one successful dial hands out an unflagged
connection. -/
theorem getConnection_never_hands_out_flagged_witness :
    (samplePool [sampleFlagged]).GetConnection false [] =
      ConnectionPool.GetConnResult.err Err.poolClosed ∧
    sampleOpen.flagged = false :=
  ⟨(getConnection_never_hands_out_flagged (samplePool [sampleFlagged])
      false []).2 sampleFlagged [] sampleFlagged Err.poolClosed (by decide)
      (by decide) (by decide),
   (getConnection_never_hands_out_flagged (samplePool [sampleFlagged])
      false [true]).1 sampleOpen (samplePool []) (by decide)⟩

/-- **C3.** `GetTransientConnection` whose initial dial fails crashes: the
source calls `conn.Recover(ctx)` on the nil Connection that the failed
`NewConnection` returned, dereferencing a nil pointer, for every recovery
trace and pool state — it neither recovers the half-built Connection nor
returns an error.  On a successful initial dial it returns the fresh
connection and increments the live-transient counter (the counter is
incremented only on this success path). -/
theorem getTransientConnection_crashes_on_dial_failure :
    (∀ (cp : ConnectionPool) (dials : List Bool),
      cp.GetTransientConnection false dials =
        ConnectionPool.GetTransientResult.crash) ∧
    (∀ (cp : ConnectionPool) (dials : List Bool),
      cp.GetTransientConnection true dials =
        ConnectionPool.GetTransientResult.got (dialedConnection false)
          { cp with transientID := cp.transientID + 1,
                    concurrentTransient := cp.concurrentTransient + 1 }) := by
  constructor
  · intro cp dials
    rfl
  · intro cp dials
    rfl

/-- **C4.** Sessions are *not* created with the pool's configured
`buffer_size` option: `deriveSession` and `GetTransientSession` both pass the
pool's *size* as the pending-confirmations queue capacity.  Concretely, a
pool of size 5 with the default `buffer_size = 1` stores `bufferSize = 1`
but every cached session and every transient session it creates carries
buffer size 5. -/
theorem session_buffer_size_is_pool_size :
    (∀ (sp : SessionPool) (conn : Connection) (id : Int) (cached : Bool),
      (sp.deriveSession conn id cached).bufferSize = sp.size) ∧
    NewSessionPool 5 1 false = NewSessionPoolResult.ok sampleSessionPool ∧
    sampleSessionPool.bufferSize = 1 ∧
    (∀ s ∈ sampleSessionPool.sessions, s.bufferSize = 5) ∧
    (sampleSessionPool.deriveSession sampleOpen 7 true).bufferSize = 5 ∧
    (sampleSessionPool.GetTransientSession (samplePool []) true []).map
      (fun t => t.1.bufferSize) = some 5 := by
  refine ⟨fun sp conn id cached => rfl, by decide, rfl, by decide, rfl,
    by decide⟩

/-- **C5.** `ReturnConnection` routing: a transient connection is closed and
the live-transient counter decremented, with the cached queue untouched (the
resulting pool differs from the input only in the counter); a cached
connection is flagged exactly when the error is broker-class — a `none`
error or a shutdown-class error never flags an unflagged connection — and
then enqueued; a full queue panics (hard failure) instead of blocking. -/
theorem returnConnection_routes (cp : ConnectionPool) (conn : Connection)
    (err : Option Err) :
    (conn.isCached = false →
      cp.ReturnConnection conn err =
        ConnectionPool.ReturnConnResult.ok
          { cp with concurrentTransient := cp.concurrentTransient - 1 }
          conn.close true) ∧
    (conn.isCached = true → cp.connections.length < cp.size →
      cp.ReturnConnection conn err =
        ConnectionPool.ReturnConnResult.ok
          { cp with
              connections := cp.connections ++ [conn.flag (flaggable err)] }
          (conn.flag (flaggable err)) false) ∧
    (conn.isCached = true → ¬ cp.connections.length < cp.size →
      cp.ReturnConnection conn err =
        ConnectionPool.ReturnConnResult.panicked) ∧
    (conn.flagged = false →
      ((conn.flag (flaggable err)).flagged = true ↔
        ∃ e, err = some e ∧ e.shutdownClass = false)) ∧
    ((conn.flag (flaggable err)).flagged = (conn.flagged || flaggable err)) := by
  refine ⟨?_, ?_, ?_, ?_, ?_⟩
  · intro h
    unfold ConnectionPool.ReturnConnection
    rw [h]
    rfl
  · intro h hlen
    unfold ConnectionPool.ReturnConnection
    rw [h]
    simp only [Bool.not_true, Bool.false_eq_true, if_false, ite_false]
    rw [if_pos hlen]
  · intro h hlen
    unfold ConnectionPool.ReturnConnection
    rw [h]
    simp only [Bool.not_true, Bool.false_eq_true, if_false, ite_false]
    rw [if_neg hlen]
  · intro h
    cases err with
    | none => simp [flaggable, Connection.flag, h]
    | some e =>
      cases hs : e.shutdownClass with
      | true => simp [flaggable, Connection.flag, h, hs]
      | false => simp [flaggable, Connection.flag, h, hs]
  · cases hf : conn.flagged with
    | false => cases hfl : flaggable err <;> simp [Connection.flag, hf, hfl]
    | true => simp [Connection.flag, hf]

/-- Witness for C5: the concrete transient connection is closed with the
counter decremented; a broker error flags and enqueues the concrete cached
connection; a full queue panics. -/
theorem returnConnection_routes_witness :
    sampleTransient.isCached = false ∧
    (samplePool []).ReturnConnection sampleTransient none =
      ConnectionPool.ReturnConnResult.ok
        { samplePool [] with
            concurrentTransient := (samplePool []).concurrentTransient - 1 }
        sampleTransient.close true ∧
    (samplePool []).ReturnConnection sampleOpen (some (Err.amqpError 320)) =
      ConnectionPool.ReturnConnResult.ok
        { samplePool [] with
            connections := (samplePool []).connections ++
              [sampleOpen.flag (flaggable (some (Err.amqpError 320)))] }
        (sampleOpen.flag (flaggable (some (Err.amqpError 320)))) false ∧
    (samplePool [sampleOpen]).ReturnConnection sampleOpen none =
      ConnectionPool.ReturnConnResult.panicked :=
  ⟨by decide,
   (returnConnection_routes (samplePool []) sampleTransient none).1 (by decide),
   (returnConnection_routes (samplePool []) sampleOpen
      (some (Err.amqpError 320))).2.1 (by decide) (by decide),
   (returnConnection_routes (samplePool [sampleOpen]) sampleOpen
      none).2.2.1 (by decide) (by decide)⟩

/-- **C6.** `ReturnSession` routing: a non-cached session is simply closed;
a cached erred session is recovered and re-enqueued exactly when recovery
does not return a shutdown-class error (on a shutdown-class recovery error
it is discarded, not re-enqueued); a cached healthy session has its pending
confirmations flushed (the enqueued session has none left) before
re-enqueueing; and the final enqueue races the shutdown token, the session
being closed when shutdown wins. -/
theorem returnSession_routes (sp : SessionPool) (sess : Session)
    (erred shutdownDuringRecover : Bool) :
    (sess.cached = false →
      SessionPool.ReturnSession sp sess erred shutdownDuringRecover =
        SessionPool.ReturnSessionResult.closedNotCached sess.close ∧
      sess.close.closed = true) ∧
    (sess.cached = true → erred = true → shutdownDuringRecover = true →
      (sess.recoverOp shutdownDuringRecover).2 = some Err.poolClosed ∧
      Err.poolClosed.shutdownClass = true ∧
      SessionPool.ReturnSession sp sess erred shutdownDuringRecover =
        SessionPool.ReturnSessionResult.discarded sess) ∧
    (sess.cached = true → erred = true → shutdownDuringRecover = false →
      sp.shutdown = false →
      SessionPool.ReturnSession sp sess erred shutdownDuringRecover =
        SessionPool.ReturnSessionResult.enqueued sess
          { sp with sessions := sp.sessions ++ [sess] }) ∧
    (sess.cached = true → erred = false → sp.shutdown = false →
      SessionPool.ReturnSession sp sess erred shutdownDuringRecover =
        SessionPool.ReturnSessionResult.enqueued sess.flushConfirms
          { sp with sessions := sp.sessions ++ [sess.flushConfirms] } ∧
      sess.flushConfirms.pendingConfirms = 0) ∧
    (sess.cached = true → erred = false → sp.shutdown = true →
      SessionPool.ReturnSession sp sess erred shutdownDuringRecover =
        SessionPool.ReturnSessionResult.closedOnShutdown
          sess.flushConfirms.close ∧
      sess.flushConfirms.close.closed = true) ∧
    (sess.cached = true → erred = true → shutdownDuringRecover = false →
      sp.shutdown = true →
      SessionPool.ReturnSession sp sess erred shutdownDuringRecover =
        SessionPool.ReturnSessionResult.closedOnShutdown sess.close ∧
      sess.close.closed = true) := by
  refine ⟨?_, ?_, ?_, ?_, ?_, ?_⟩
  · intro h
    exact ⟨by simp [SessionPool.ReturnSession, h], rfl⟩
  · intro h he hs
    subst he hs
    exact ⟨rfl, rfl,
      by simp [SessionPool.ReturnSession, Session.recoverOp, h]⟩
  · intro h he hs hsp
    subst he hs
    simp [SessionPool.ReturnSession, Session.recoverOp, h, hsp]
  · intro h he hsp
    subst he
    exact ⟨by simp [SessionPool.ReturnSession, h, hsp], rfl⟩
  · intro h he hsp
    subst he
    exact ⟨by simp [SessionPool.ReturnSession, h, hsp], rfl⟩
  · intro h he hs hsp
    subst he hs
    exact ⟨by simp [SessionPool.ReturnSession, Session.recoverOp, h, hsp],
      rfl⟩

/-- Witness for C6: the concrete dirty cached session is flushed and
re-enqueued when healthy, discarded when recovery hits shutdown, and a
non-cached session is closed. -/
theorem returnSession_routes_witness :
    SessionPool.ReturnSession sampleSessionPool sampleDirtySession false
        false =
      SessionPool.ReturnSessionResult.enqueued sampleDirtySession.flushConfirms
        { sampleSessionPool with
            sessions := sampleSessionPool.sessions ++
              [sampleDirtySession.flushConfirms] } ∧
    sampleDirtySession.flushConfirms.pendingConfirms = 0 ∧
    SessionPool.ReturnSession sampleSessionPool sampleDirtySession true true =
      SessionPool.ReturnSessionResult.discarded sampleDirtySession ∧
    SessionPool.ReturnSession sampleSessionPool
        (Session.new 9 1 false false true) false false =
      SessionPool.ReturnSessionResult.closedNotCached
        (Session.new 9 1 false false true).close :=
  ⟨((returnSession_routes sampleSessionPool sampleDirtySession false
      false).2.2.2.1 (by decide) rfl (by decide)).1,
   ((returnSession_routes sampleSessionPool sampleDirtySession false
      false).2.2.2.1 (by decide) rfl (by decide)).2,
   ((returnSession_routes sampleSessionPool sampleDirtySession true
      true).2.1 (by decide) rfl rfl).2.2,
   ((returnSession_routes sampleSessionPool (Session.new 9 1 false false true)
      false false).1 (by decide)).1⟩

/-- **C7** counterexample: `NewSessionPool` with size 0 does not return the
`InvalidPoolSize` error kind — it panics with the message
"max pool size is negative or 0". -/
theorem newSessionPool_size_zero_panics :
    NewSessionPool 0 1 false =
      NewSessionPoolResult.panicked "max pool size is negative or 0" ∧
    NewSessionPool 0 1 false ≠
      NewSessionPoolResult.err Err.invalidPoolSize := by
  constructor
  · rfl
  · decide

/-- **C7** (amended).  Constructing a pool with `size < 1` (in particular
size 0) fails: `NewConnectionPool` returns the `InvalidPoolSize` error;
`NewSessionPool` does not return an error — it panics with
"max pool size is negative or 0". -/
theorem pool_size_zero_rejected (size : Int) (h : size < 1)
    (urlValid : Bool) (dialOk : Nat → Bool) (parentDone : Bool)
    (bufferSize : Nat) (confirmable : Bool) :
    NewConnectionPool size urlValid dialOk parentDone =
      Except.error Err.invalidPoolSize ∧
    NewSessionPool size bufferSize confirmable =
      NewSessionPoolResult.panicked "max pool size is negative or 0" := by
  constructor
  · unfold NewConnectionPool
    rw [if_pos h]
  · unfold NewSessionPool
    rw [if_pos h]

/-- Witness for C7: both constructors at size 0. -/
theorem pool_size_zero_rejected_witness :
    (0 : Int) < 1 ∧
    NewConnectionPool 0 true (fun _ => true) false =
      Except.error Err.invalidPoolSize ∧
    NewSessionPool 0 1 false =
      NewSessionPoolResult.panicked "max pool size is negative or 0" :=
  ⟨by decide,
   (pool_size_zero_rejected 0 (by decide) true (fun _ => true) false 1
      false).1,
   (pool_size_zero_rejected 0 (by decide) true (fun _ => true) false 1
      false).2⟩

/-- **C10.** `SessionPool.Close` mutates only the session queue: it empties
the queue and closes exactly the drained sessions, every other field — in
particular the pool's own cancellation token — is untouched, so after
`Close` (with no parent token fired) the shutdown token is still untriggered
and a subsequent `GetSession` blocks on the empty queue instead of
returning `Closed`. -/
theorem sessionPool_close_only_drains_queue (sp : SessionPool) :
    (SessionPool.Close sp).1 = { sp with sessions := [] } ∧
    (SessionPool.Close sp).2 = sp.sessions.map Session.close ∧
    (SessionPool.Close sp).1.shutdown = sp.shutdown ∧
    (sp.shutdown = false →
      SessionPool.GetSession (SessionPool.Close sp).1 =
        SessionPool.GetSessionResult.blocks) := by
  refine ⟨rfl, rfl, rfl, ?_⟩
  intro h
  unfold SessionPool.GetSession SessionPool.Close
  simp [h]

/-- Witness for C10: closing the concrete session pool leaves its token
untriggered and the next `GetSession` blocks. -/
theorem sessionPool_close_only_drains_queue_witness :
    SessionPool.GetSession (SessionPool.Close sampleSessionPool).1 =
      SessionPool.GetSessionResult.blocks :=
  (sessionPool_close_only_drains_queue sampleSessionPool).2.2.2 (by decide)

lemma initAux_step_fail (dialOk : Nat → Bool) (cap : Nat) (pd : Bool)
    (id r : Nat) (queue : List Connection) (hd : dialOk id = false) :
    ConnectionPool.initCachedConnsAux dialOk cap pd id (r + 1) queue =
      (queue, some (Err.poolInitializationFailed Err.connectionFailed)) := by
  conv_lhs => rw [ConnectionPool.initCachedConnsAux]
  rw [hd]
  rfl

lemma initAux_step_ok (dialOk : Nat → Bool) (cap : Nat) (pd : Bool)
    (id r : Nat) (queue : List Connection) (hd : dialOk id = true) :
    ConnectionPool.initCachedConnsAux dialOk cap pd id (r + 1) queue =
      (if queue.length < cap then
        ConnectionPool.initCachedConnsAux dialOk cap pd (id + 1) r
          (queue ++ [dialedConnection true])
      else if pd then
        (queue, some (Err.poolInitializationFailed Err.ctxCanceled))
      else (queue, some (Err.poolInitializationFailed Err.chanFull))) := by
  conv_lhs => rw [ConnectionPool.initCachedConnsAux]
  rw [hd]
  rfl

/-- If some id in range fails to dial, the init loop returns a
`PoolInitializationFailed` error and every connection in the queue it leaves
behind is still open (live handle, untriggered token): nothing closes
them. -/
lemma initCachedConnsAux_fail_open (dialOk : Nat → Bool) (cap : Nat)
    (pd : Bool) :
    ∀ (remaining id : Nat) (queue : List Connection),
      (∃ i, id ≤ i ∧ i < id + remaining ∧ dialOk i = false) →
      (∀ c ∈ queue, c.connLive = true ∧ c.shutdown = false) →
      ∃ cause,
        (ConnectionPool.initCachedConnsAux dialOk cap pd id remaining
            queue).2 = some (Err.poolInitializationFailed cause) ∧
        ∀ c ∈ (ConnectionPool.initCachedConnsAux dialOk cap pd id remaining
            queue).1, c.connLive = true ∧ c.shutdown = false := by
  intro remaining
  induction remaining with
  | zero =>
    intro id queue hex _
    obtain ⟨i, h1, h2, -⟩ := hex
    omega
  | succ r ih =>
    intro id queue hex hq
    cases hd : dialOk id with
    | false =>
      rw [initAux_step_fail dialOk cap pd id r queue hd]
      exact ⟨Err.connectionFailed, rfl, hq⟩
    | true =>
      rw [initAux_step_ok dialOk cap pd id r queue hd]
      by_cases hlen : queue.length < cap
      · rw [if_pos hlen]
        obtain ⟨i, h1, h2, h3⟩ := hex
        have hne : i ≠ id := by
          intro he
          rw [he] at h3
          rw [h3] at hd
          exact Bool.noConfusion hd
        refine ih (id + 1) (queue ++ [dialedConnection true])
          ⟨i, by omega, by omega, h3⟩ ?_
        intro c hc
        rcases List.mem_append.mp hc with hc | hc
        · exact hq c hc
        · rw [List.mem_singleton.mp hc]
          exact ⟨rfl, rfl⟩
      · rw [if_neg hlen]
        by_cases hpd : pd = true
        · rw [if_pos hpd]
          exact ⟨Err.ctxCanceled, rfl, hq⟩
        · rw [if_neg hpd]
          exact ⟨Err.chanFull, rfl, hq⟩

/-- **C2** counterexample: constructing a pool of size 2 whose second dial
fails returns `PoolInitializationFailed` wrapping the dial error, but the
already-initialized connection 0 is *not* closed — it is left in the
abandoned queue with a live handle (`connLive = true`) and an untriggered
token (`shutdown = false`), whereas `Connection.close` would set both. -/
theorem pool_init_failure_counterexample :
    ConnectionPool.initCachedConns 2 (fun i => i == 0) false =
      ([dialedConnection true],
        some (Err.poolInitializationFailed Err.connectionFailed)) ∧
    (dialedConnection true).connLive = true ∧
    (dialedConnection true).shutdown = false ∧
    (dialedConnection true).close.connLive = false ∧
    (dialedConnection true).close.shutdown = true ∧
    NewConnectionPool 2 true (fun i => i == 0) false =
      Except.error (Err.poolInitializationFailed Err.connectionFailed) := by
  refine ⟨by decide, rfl, rfl, rfl, rfl, rfl⟩

/-- **C2** (amended).  If the eager creation of one of the `size` cached
Connections fails, the constructor returns a `PoolInitializationFailed`
error wrapping the cause; the already-initialized Connections are *not*
closed — they are left open in the abandoned queue. -/
theorem pool_init_failure_error_and_open_connections
    (numConns : Int) (dialOk : Nat → Bool)
    (hpos : 1 ≤ numConns)
    (hfail : ∃ i, i < numConns.toNat ∧ dialOk i = false) :
    (∃ cause, NewConnectionPool numConns true dialOk false =
        Except.error (Err.poolInitializationFailed cause)) ∧
    (∀ c ∈ (ConnectionPool.initCachedConns numConns.toNat dialOk false).1,
      c.connLive = true ∧ c.shutdown = false) := by
  obtain ⟨i, hi, hdi⟩ := hfail
  obtain ⟨cause, hres, hopen⟩ :=
    initCachedConnsAux_fail_open dialOk numConns.toNat false numConns.toNat
      0 [] ⟨i, Nat.zero_le i, by omega, hdi⟩ (by intro c hc; cases hc)
  refine ⟨⟨cause, ?_⟩, ?_⟩
  · unfold NewConnectionPool
    rw [if_neg (by omega : ¬ numConns < 1)]
    simp only [Bool.not_true, Bool.false_eq_true, if_false, ite_false]
    unfold ConnectionPool.initCachedConns
    rcases hI : ConnectionPool.initCachedConnsAux dialOk numConns.toNat
        false 0 numConns.toNat [] with ⟨q, res⟩
    rw [hI] at hres
    have hres' : res = some (Err.poolInitializationFailed cause) := hres
    rw [hres']
  · unfold ConnectionPool.initCachedConns
    exact hopen

/-- Witness for C2 (amended): size 2, dial succeeding only for id 0. -/
theorem pool_init_failure_error_and_open_connections_witness :
    (1 : Int) ≤ 2 ∧
    (∃ i, i < (2 : Int).toNat ∧ (fun j => j == 0) i = false) ∧
    (∃ cause, NewConnectionPool 2 true (fun j => j == 0) false =
        Except.error (Err.poolInitializationFailed cause)) ∧
    (∀ c ∈ (ConnectionPool.initCachedConns (2 : Int).toNat
        (fun j => j == 0) false).1,
      c.connLive = true ∧ c.shutdown = false) :=
  ⟨by decide, ⟨1, by decide, by decide⟩,
   (pool_init_failure_error_and_open_connections 2 (fun j => j == 0)
      (by decide) ⟨1, by decide, by decide⟩).1,
   (pool_init_failure_error_and_open_connections 2 (fun j => j == 0)
      (by decide) ⟨1, by decide, by decide⟩).2⟩
